import Mathlib

set_option maxRecDepth 8192

/-!
Verification of the SL line-29 disruption monitor (three Python variants:
`sl_monitor_gtfs.py`, `sl_monitor_simple.py`, `sl_monitor_ultra_simple.py`).

The development shallowly embeds the decision core of each variant:
the line filter, the snapshot reconciliation / classification logic, the
state persistence record, the notification composer and the per-transition
dispatch-channel tables.  I/O plumbing (HTTP fetch, SMTP sessions, file
handles, logging) is out of scope; wall-clock reads (`datetime.now()`)
become explicit `String` parameters, and a state-file read that can fail
becomes an `Option` input.
-/

/-- Module constant `LINE_TO_MONITOR = "29"` (same in all three variants). -/
def LINE_TO_MONITOR : String := "29"

/-- Module constant `LINE_NAME = "Näsbyparkslinjen"`. -/
def LINE_NAME : String := "Näsbyparkslinjen"

/-- Bool test that `needle` is an initial segment of `hay` (char lists). -/
def strHasPre : List Char → List Char → Bool
  | [], _ => true
  | _ :: _, [] => false
  | a :: as, b :: bs => a == b && strHasPre as bs

/-- Bool test that `needle` occurs contiguously somewhere in `hay`. -/
def strHasSub (needle : List Char) : List Char → Bool
  | [] => strHasPre needle []
  | b :: bs => strHasPre needle (b :: bs) || strHasSub needle bs

/-- Python `needle in hay` on strings: contiguous substring containment
over unicode code points. -/
def strContains (hay needle : String) : Bool :=
  strHasSub needle.data hay.data

/-- One entry of a disruption's `active_periods` list as built by
`filter_line_29` in `sl_monitor_gtfs.py` (lines 122-129): ISO strings,
`""` when the corresponding protobuf bound is absent. -/
structure ActivePeriod where
  start : String
  end_ : String
deriving DecidableEq

/-- The normalized disruption dict built by `filter_line_29` in
`sl_monitor_gtfs.py` (lines 131-138): keys `alert_id`, `header`,
`description`, `active_periods`, `cause`, `effect`. -/
structure Disruption where
  alert_id : String
  header : String
  description : String
  active_periods : List ActivePeriod
  cause : Nat
  effect : Nat
deriving DecidableEq

/-- One `informed_entity` of a GTFS alert as read by `filter_line_29`:
`has_route_id` models `HasField('route_id')`. -/
structure InformedEntity where
  has_route_id : Bool
  route_id : String
deriving DecidableEq

/-- One `entity` of the GTFS feed as read by `filter_line_29`.
`has_alert` models `entity.HasField('alert')`; `header`, `description`,
`active_periods`, `cause` and `effect` carry the already-extracted
translation texts and codes (the protobuf translation-selection loops of
lines 107-129 are transport parsing, out of the core). -/
structure FeedEntity where
  id : String
  has_alert : Bool
  informed_entity : List InformedEntity
  header : String
  description : String
  active_periods : List ActivePeriod
  cause : Nat
  effect : Nat
deriving DecidableEq

/-- `sl_monitor_gtfs.py` lines 95-104: an alert affects line 29 when some
informed entity has a `route_id` with `LINE_TO_MONITOR in route_id or
route_id == LINE_TO_MONITOR` (the loop breaks at the first hit, which is
`List.any`). -/
def affects_line_29 (informed : List InformedEntity) : Bool :=
  informed.any fun ie =>
    ie.has_route_id &&
      (strContains ie.route_id LINE_TO_MONITOR || ie.route_id == LINE_TO_MONITOR)

/-- `SLMonitorGTFS.filter_line_29` (lines 81-142): keep entities that have
an alert affecting line 29 and build the disruption dict for each; the
header falls back to `"Störning"` when empty (`header or "Störning"`). -/
def filter_line_29 (feed : List FeedEntity) : List Disruption :=
  (feed.filter fun e => e.has_alert && affects_line_29 e.informed_entity).map
    fun e =>
      { alert_id := e.id
        header := if e.header = "" then "Störning" else e.header
        description := e.description
        active_periods := e.active_periods
        cause := e.cause
        effect := e.effect }

/-- The state dict written by `SLMonitorGTFS.save_state` (lines 154-166):
`timestamp` (from `datetime.now().isoformat()`, here an explicit input),
`disruptions`, and `alert_ids = [d.get("alert_id") for d in disruptions]`. -/
structure SavedState where
  timestamp : String
  disruptions : List Disruption
  alert_ids : List String
deriving DecidableEq

/-- `SLMonitorGTFS.save_state` with the wall clock as an explicit `now`
argument. -/
def save_state (now : String) (disruptions : List Disruption) : SavedState :=
  { timestamp := now
    disruptions := disruptions
    alert_ids := disruptions.map fun d => d.alert_id }

/-- The `previous_ids` extraction of `SLMonitorGTFS.run` line 295 composed
with `load_previous_state` (lines 144-152): a missing or unreadable state
file yields the empty dict `{}`, so `previous_state.get("alert_ids", [])`
is `[]`; a successful read yields the stored `alert_ids`. -/
def previousIdsOf : Option SavedState → List String
  | Option.none => []
  | Option.some s => s.alert_ids

/-- Transition classification of one poll cycle (spec §3; the five-way
branch of `SLMonitorGTFS.run` lines 298-317). -/
inductive Transition where
  | new
  | updated
  | ongoing
  | resolved
  | none
deriving DecidableEq

/-- `current_ids` of `SLMonitorGTFS.run` line 296. -/
def currentIdsOf (ds : List Disruption) : List String :=
  ds.map fun d => d.alert_id

/-- `new_ids = current_ids - previous_ids` (`run` line 299), as the list of
current ids not previously known (same membership and emptiness as the
Python set difference). -/
def newIdsOf (prevIds : List String) (ds : List Disruption) : List String :=
  (currentIdsOf ds).filter fun i => !(prevIds.contains i)

/-- `resolved_ids = previous_ids - current_ids` (`run` line 300). -/
def resolvedIdsOf (prevIds : List String) (ds : List Disruption) : List String :=
  prevIds.filter fun i => !((currentIdsOf ds).contains i)

/-- The classification branch of `SLMonitorGTFS.run` lines 302-317:
truthiness of the Python lists/sets becomes non-emptiness.  The relevant
record set is the one the code passes to `send_notification` (for
`ongoing` the code only logs; the full current set is what it reports). -/
def classify (prevIds : List String) (current : List Disruption) :
    Transition × List Disruption :=
  if current ≠ [] then
    if newIdsOf prevIds current ≠ [] then
      (Transition.new,
        current.filter fun d => (newIdsOf prevIds current).contains d.alert_id)
    else if resolvedIdsOf prevIds current ≠ [] ∧ currentIdsOf current ≠ [] then
      (Transition.updated, current)
    else
      (Transition.ongoing, current)
  else
    if prevIds ≠ [] then
      (Transition.resolved, [])
    else
      (Transition.none, [])

/-- One reconciliation cycle: classification plus the unconditionally
written new persisted state (`run` lines 298-320, `save_state` at 320). -/
def reconcile (now : String) (prevIds : List String)
    (current : List Disruption) : (Transition × List Disruption) × SavedState :=
  (classify prevIds current, save_state now current)

/-- Notification delivery channels present in the variants. -/
inductive Channel where
  | desktop
  | email
deriving DecidableEq

/-- Channels touched by `SLMonitorGTFS.send_notification` (lines 193-217)
for a given `notification_type` string: desktop always, email only for
`"new"` and `"updated"`. -/
def sendChannelsGTFS (nt : String) : List Channel :=
  [Channel.desktop] ++ (if nt = "new" ∨ nt = "updated" then [Channel.email] else [])

/-- Channels dispatched per classification in the GTFS variant:
`run` calls `send_notification` only for the new, updated and resolved
branches (lines 302-317); ongoing and none only log. -/
def dispatchGTFS : Transition → List Channel
  | Transition.new => sendChannelsGTFS "new"
  | Transition.updated => sendChannelsGTFS "updated"
  | Transition.ongoing => []
  | Transition.resolved => sendChannelsGTFS "resolved"
  | Transition.none => []

/-- Channels touched by `SLMonitorSimple.send_notification` (lines
177-204): there is no desktop channel in this variant and email is sent
only for `"new"` and `"resolved"` (line 203). -/
def sendChannelsSimple (nt : String) : List Channel :=
  if nt = "new" ∨ nt = "resolved" then [Channel.email] else []

/-- Channels dispatched per classification in the simple variant:
`run` calls `send_notification` for the new, updated and resolved branches
(lines 259-276); ongoing and none only log. -/
def dispatchSimple : Transition → List Channel
  | Transition.new => sendChannelsSimple "new"
  | Transition.updated => sendChannelsSimple "updated"
  | Transition.ongoing => []
  | Transition.resolved => sendChannelsSimple "resolved"
  | Transition.none => []

/-- All channels the GTFS variant is wired to (desktop and email). -/
def allChannelsGTFS : List Channel := [Channel.desktop, Channel.email]

/-- All channels the simple variant is wired to (email only: it has no
desktop-notification function). -/
def allChannelsSimple : List Channel := [Channel.email]

/-- The description truncation of `format_disruption_message` in
`sl_monitor_gtfs.py` lines 177-179: `desc[:300] + "..."` when longer than
300 characters. -/
def truncDesc300 (s : String) : String :=
  if s.length > 300 then s.take 300 ++ "..." else s

/-- The details truncation of `SLMonitorSimple.send_notification` lines
191-193: `details[:200] + "..."` when longer than 200 characters. -/
def truncDesc200 (s : String) : String :=
  if s.length > 200 then s.take 200 ++ "..." else s

/-- One active-period rendering step of `format_disruption_message` lines
183-187: a `Från:` line only when `start` is non-empty, a `Till:` line
only when `end` is non-empty. -/
def renderPeriodGTFS (p : ActivePeriod) : String :=
  (if p.start ≠ "" then "   Från: " ++ p.start ++ "\n" else "") ++
  (if p.end_ ≠ "" then "   Till: " ++ p.end_ ++ "\n" else "")

/-- The per-record message chunk of `format_disruption_message` lines
172-189 (`idx` is the 1-based position from `enumerate(disruptions, 1)`);
the details line appears only when `description` is truthy, i.e.
non-empty. -/
def formatOneGTFS (idx : Nat) (d : Disruption) : String :=
  ("\n🔴 Störning " ++ toString idx ++ ":\n") ++
  ("   " ++ d.header ++ "\n") ++
  (if d.description ≠ "" then "   " ++ truncDesc300 d.description ++ "\n" else "") ++
  String.join (d.active_periods.map renderPeriodGTFS) ++
  "\n"

/-- The `enumerate(disruptions, 1)` accumulation loop of
`format_disruption_message`. -/
def formatFromGTFS (idx : Nat) : List Disruption → String
  | [] => ""
  | d :: rest => formatOneGTFS idx d ++ formatFromGTFS (idx + 1) rest

/-- `SLMonitorGTFS.format_disruption_message` (lines 168-191). -/
def format_disruption_message (ds : List Disruption) : String :=
  formatFromGTFS 1 ds

/-- The title selection of `SLMonitorGTFS.send_notification` lines
195-202. -/
def titleGTFS (nt : String) : String :=
  if nt = "new" then
    "⚠️ NY störning på linje " ++ LINE_TO_MONITOR ++ " (" ++ LINE_NAME ++ ")"
  else if nt = "updated" then
    "🔄 Uppdaterad störning på linje " ++ LINE_TO_MONITOR
  else if nt = "ongoing" then
    "ℹ️ Pågående störning på linje " ++ LINE_TO_MONITOR
  else
    "✅ Störning löst på linje " ++ LINE_TO_MONITOR

/-- The `full_message` built by `SLMonitorGTFS.send_notification` lines
204-208: with records, title + formatted list + check link; with no
records, the fixed resolved text. -/
def composeMessageGTFS (ds : List Disruption) (nt : String) : String :=
  if ds ≠ [] then
    titleGTFS nt ++ "\n" ++ format_disruption_message ds ++
      "\nKontrollera: https://sl.se/reseplanering/trafiklaget"
  else
    titleGTFS nt ++ "\n\nAlla störningar på Näsbyparkslinjen har lösts!"

/-- The disruption dict of the simple variant (`filter_line_29` in
`sl_monitor_simple.py` lines 144-149): `header`, `details`, `severity`,
`timestamp`. -/
structure SimpleRecord where
  header : String
  details : String
  severity : Nat
  timestamp : String
deriving DecidableEq

/-- The per-record chunk of `SLMonitorSimple.send_notification` lines
188-195: numbered header line, then the truncated details line only when
`details` is truthy. -/
def formatOneSimple (idx : Nat) (r : SimpleRecord) : String :=
  (toString idx ++ ". " ++ r.header ++ "\n") ++
  (if r.details ≠ "" then "   " ++ truncDesc200 r.details ++ "\n" else "") ++
  "\n"

/-- The `enumerate(disruptions, 1)` accumulation loop of
`SLMonitorSimple.send_notification`. -/
def formatFromSimple (idx : Nat) : List SimpleRecord → String
  | [] => ""
  | r :: rest => formatOneSimple idx r ++ formatFromSimple (idx + 1) rest

/-- The page URL used by the ultra-simple variant. -/
def ultraUrl : String := "https://sl.se/reseplanering/trafiklaget"

/-- The resolved-email subject of `SLMonitorUltraSimple.run` line 195. -/
def ultraResolvedSubject : String :=
  "✅ Störning löst - Linje " ++ LINE_TO_MONITOR

/-- The resolved-email body of `SLMonitorUltraSimple.run` lines 196-199,
with the `datetime.now().strftime(...)` read as an explicit `now`
argument. -/
def ultraResolvedBody (now : String) : String :=
  ("Störningen på linje " ++ LINE_TO_MONITOR ++ " (" ++ LINE_NAME ++
    ") verkar vara löst!\n\n") ++
  ("Linje " ++ LINE_TO_MONITOR ++
    " nämns inte längre bland störningar på SL:s sida.\n\n") ++
  ("Kontrollera: " ++ ultraUrl ++ "\n\n") ++
  ("Löst: " ++ now)

/-- The part of the ultra-simple resolved body that does not depend on the
send time. -/
def ultraResolvedBodyStem : String :=
  ("Störningen på linje " ++ LINE_TO_MONITOR ++ " (" ++ LINE_NAME ++
    ") verkar vara löst!\n\n") ++
  ("Linje " ++ LINE_TO_MONITOR ++
    " nämns inte längre bland störningar på SL:s sida.\n\n") ++
  ("Kontrollera: " ++ ultraUrl ++ "\n\n") ++
  "Löst: "

/-- Concrete disruption with id `"A"`, used in witnesses. -/
def dA : Disruption :=
  { alert_id := "A", header := "hA", description := "", active_periods := []
    cause := 0, effect := 0 }

/-- Concrete disruption with id `"B"`, used in witnesses. -/
def dB : Disruption :=
  { alert_id := "B", header := "hB", description := "", active_periods := []
    cause := 0, effect := 0 }

/-- Concrete feed entity whose only informed entity has `route_id "129"`:
a different line that still contains `"29"` as a substring. -/
def e129 : FeedEntity :=
  { id := "ent-129", has_alert := true
    informed_entity := [{ has_route_id := true, route_id := "129" }]
    header := "Buss 129 försenad", description := "", active_periods := []
    cause := 0, effect := 0 }

/-- Concrete disruption with a non-empty description, used in witnesses. -/
def dC : Disruption :=
  { alert_id := "C", header := "Försening", description := "Spårarbete mellan stationerna."
    active_periods := [{ start := "2025-10-12T08:00:00", end_ := "" }]
    cause := 1, effect := 2 }

/-- Membership in the code's `new_ids` difference, for a current record's
id, is exactly non-membership in the previous id set. -/
theorem contains_newIdsOf_eq (prevIds : List String) (current : List Disruption)
    (d : Disruption) (hd : d ∈ current) :
    ((newIdsOf prevIds current).contains d.alert_id) = decide (d.alert_id ∉ prevIds) := by
  by_cases hp : d.alert_id ∈ prevIds
  · have h1 : decide (d.alert_id ∉ prevIds) = false := by simp [hp]
    rw [h1]
    simp [newIdsOf, currentIdsOf, List.mem_filter, hp]
  · have h1 : decide (d.alert_id ∉ prevIds) = true := by simp [hp]
    rw [h1]
    simp only [newIdsOf, currentIdsOf]
    simp [List.mem_filter, List.mem_map, hp]
    exact ⟨d, hd, rfl⟩

/-- Claim C1: when the current snapshot is non-empty and `newIds =
currentIds − previousIds` is non-empty, the cycle is classified `New`
with relevant set exactly the current records whose id is not previously
known, regardless of whether `resolvedIds` is simultaneously non-empty
(new beats updated). -/
theorem new_classification_takes_precedence
    (prevIds : List String) (current : List Disruption)
    (hc : current ≠ []) (hn : newIdsOf prevIds current ≠ []) :
    classify prevIds current =
      (Transition.new, current.filter fun d => decide (d.alert_id ∉ prevIds)) := by
  unfold classify
  rw [if_pos hc, if_pos hn]
  exact congrArg (fun l => (Transition.new, l))
    (List.filter_congr (contains_newIdsOf_eq prevIds current))

/-- Witness for C1: previous ids {A, C}, current records {A, B}; the
resolved set {C} is simultaneously non-empty and the classification is
still `New` with relevant set {B}. -/
theorem new_classification_takes_precedence_witness :
    resolvedIdsOf ["A", "C"] [dA, dB] ≠ [] ∧
    classify ["A", "C"] [dA, dB] =
      (Transition.new, [dA, dB].filter fun d => decide (d.alert_id ∉ ["A", "C"])) ∧
    ([dA, dB].filter fun d => decide (d.alert_id ∉ (["A", "C"] : List String))) = [dB] :=
  ⟨by decide,
   new_classification_takes_precedence ["A", "C"] [dA, dB] (by decide) (by decide),
   by decide⟩

/-- Claim C5: with a non-empty current snapshot, no new ids, and a
non-empty resolved set, the cycle is classified `Updated` with relevant
set equal to the full current record list. -/
theorem updated_classification_full_current_set
    (prevIds : List String) (current : List Disruption)
    (hc : current ≠ []) (hn : newIdsOf prevIds current = [])
    (hr : resolvedIdsOf prevIds current ≠ []) :
    classify prevIds current = (Transition.updated, current) := by
  unfold classify
  rw [if_pos hc, if_neg (by simp [hn]),
    if_pos ⟨hr, by simpa [currentIdsOf, List.map_eq_nil_iff] using hc⟩]

/-- Witness for C5: previous ids {A, B}, current records {A} (one id
resolved, one still active, none new) classify as `Updated` with the full
current set. -/
theorem updated_classification_full_current_set_witness :
    classify ["A", "B"] [dA] = (Transition.updated, [dA]) :=
  updated_classification_full_current_set ["A", "B"] [dA]
    (by decide) (by decide) (by decide)

/-- Claim C6: a non-empty previous id set and an empty current snapshot
classify as `Resolved` with an empty relevant set, the resolution
notification goes out on the GTFS variant's resolution channel set
(desktop only, which is non-empty), and the persisted id list becomes
empty. -/
theorem resolved_classification_empty_state
    (t : String) (prevIds : List String) (h : prevIds ≠ []) :
    classify prevIds [] = (Transition.resolved, []) ∧
    dispatchGTFS Transition.resolved = [Channel.desktop] ∧
    (save_state t []).alert_ids = [] := by
  refine ⟨?_, by decide, rfl⟩
  unfold classify
  rw [if_neg (by simp), if_pos h]

/-- Witness for C6 at previous ids {X} and save time "2025-10-12T12:00:00". -/
theorem resolved_classification_empty_state_witness :
    classify ["X"] [] = (Transition.resolved, []) ∧
    dispatchGTFS Transition.resolved = [Channel.desktop] ∧
    (save_state "2025-10-12T12:00:00" []).alert_ids = [] :=
  resolved_classification_empty_state "2025-10-12T12:00:00" ["X"] (by decide)

/-- Claim C7: every cycle persists the current snapshot and its id list
unconditionally, so the persisted id list always equals the ids of the
records stored alongside it. -/
theorem state_persisted_unconditionally
    (t : String) (prevIds : List String) (current : List Disruption) :
    (reconcile t prevIds current).2.disruptions = current ∧
    (reconcile t prevIds current).2.alert_ids =
      ((reconcile t prevIds current).2.disruptions).map fun d => d.alert_id :=
  ⟨rfl, rfl⟩

/-- Claim C8: a failed state-file read yields an empty previous id set, and
reconciling any non-empty current snapshot against it classifies all
current records as `New`. -/
theorem read_failure_degrades_to_all_new
    (current : List Disruption) (hc : current ≠ []) :
    previousIdsOf Option.none = [] ∧
    classify (previousIdsOf Option.none) current = (Transition.new, current) := by
  refine ⟨rfl, ?_⟩
  show classify [] current = (Transition.new, current)
  have hn : newIdsOf [] current ≠ [] := by
    simpa [newIdsOf, currentIdsOf, List.map_eq_nil_iff, List.filter_eq_self] using hc
  unfold classify
  rw [if_pos hc, if_pos hn]
  refine congrArg (fun l => (Transition.new, l)) (List.filter_eq_self.mpr ?_)
  intro d hd
  rw [contains_newIdsOf_eq [] current d hd]
  simp

/-- Witness for C8: with an unreadable state file and one current record,
the record is classified `New`. -/
theorem read_failure_degrades_to_all_new_witness :
    previousIdsOf Option.none = [] ∧
    classify (previousIdsOf Option.none) [dA] = (Transition.new, [dA]) :=
  read_failure_degrades_to_all_new [dA] (by decide)

/-- Counterexample to C2: in the simple variant the only configured
channel is email, `New` dispatches to it, but `Updated` dispatches to no
channel at all (email goes out only for the `"new"` and `"resolved"`
notification types), so `Updated` does not dispatch to all configured
channels. -/
theorem updated_dispatches_nothing_in_simple_variant :
    dispatchSimple Transition.new = allChannelsSimple ∧
    dispatchSimple Transition.updated = [] ∧
    dispatchSimple Transition.updated ≠ allChannelsSimple := by decide

/-- Claim C2 as amended: in the GTFS variant `New` and `Updated` dispatch
to all configured channels (desktop and email) and `Resolved` to its
resolution set (desktop only); in the simple variant `New` and `Resolved`
dispatch to email and `Updated` dispatches to no channel; `Ongoing` and
`None` never dispatch in either variant. -/
theorem dispatch_policy_tables :
    dispatchGTFS Transition.new = allChannelsGTFS ∧
    dispatchGTFS Transition.updated = allChannelsGTFS ∧
    dispatchGTFS Transition.resolved = [Channel.desktop] ∧
    dispatchGTFS Transition.ongoing = [] ∧
    dispatchGTFS Transition.none = [] ∧
    dispatchSimple Transition.new = [Channel.email] ∧
    dispatchSimple Transition.updated = [] ∧
    dispatchSimple Transition.resolved = [Channel.email] ∧
    dispatchSimple Transition.ongoing = [] ∧
    dispatchSimple Transition.none = [] := by decide

/-- Counterexample to C3: the persisted state embeds the wall-clock
timestamp of the save (`datetime.now().isoformat()`), so two calls of
`reconcile` on the same (previous, current) pair at different times
produce persisted states that are not identical. -/
theorem reconcile_twice_differs_in_timestamp :
    (reconcile "2025-10-12T10:00:00" [] []).2 ≠
      (reconcile "2025-10-12T10:05:00" [] []).2 := by decide

/-- Claim C3 as amended: reconciliation is a pure function of the
(previous, current) pair up to the persisted timestamp field: two calls at
any two times agree on the classification, the relevant set, the persisted
records and the persisted id list; only the timestamp field follows the
wall clock. -/
theorem reconcile_deterministic_up_to_timestamp
    (t t' : String) (prevIds : List String) (current : List Disruption) :
    (reconcile t prevIds current).1 = (reconcile t' prevIds current).1 ∧
    (reconcile t prevIds current).2.disruptions =
      (reconcile t' prevIds current).2.disruptions ∧
    (reconcile t prevIds current).2.alert_ids =
      (reconcile t' prevIds current).2.alert_ids :=
  ⟨rfl, rfl, rfl⟩

/-- Counterexample to C4: the ultra-simple variant's resolved email body
embeds the current wall-clock time (`"Löst: " + now`), so two runs at
different times do not produce the same body. -/
theorem ultra_resolved_body_differs_across_runs :
    ultraResolvedBody "2025-10-12 10:00:00" ≠
      ultraResolvedBody "2025-10-12 10:05:00" := by decide

/-- Claim C4 as amended: composing a resolved notice with an empty record
list never inspects any record: in the GTFS variant the title and full
message are one fixed string; in the ultra-simple variant the subject is
fixed and the body is a fixed stem followed only by the send time. -/
theorem resolved_compose_independent_of_records :
    (∀ now : String, ultraResolvedBody now = ultraResolvedBodyStem ++ now) ∧
    composeMessageGTFS [] "resolved" =
      "✅ Störning löst på linje 29\n\nAlla störningar på Näsbyparkslinjen har lösts!" ∧
    ultraResolvedSubject = "✅ Störning löst - Linje 29" :=
  ⟨fun now => by
    unfold ultraResolvedBody ultraResolvedBodyStem
    exact (String.append_assoc _ _ _).symm,
   by decide, by decide⟩

/-- Every record of the list contributes its header line followed by its
truncated-details line to the GTFS message accumulation, whatever the
starting index. -/
theorem formatFromGTFS_contains_record (idx : Nat) (ds : List Disruption)
    (d : Disruption) (hmem : d ∈ ds) (hdesc : d.description ≠ "") :
    ∃ pre post, formatFromGTFS idx ds =
      pre ++ ("   " ++ d.header ++ "\n" ++ ("   " ++ truncDesc300 d.description ++ "\n")) ++
        post := by
  induction ds generalizing idx with
  | nil => cases hmem
  | cons a rest ih =>
    rcases List.mem_cons.mp hmem with rfl | h
    · refine ⟨"\n🔴 Störning " ++ toString idx ++ ":\n",
        String.join (d.active_periods.map renderPeriodGTFS) ++ "\n" ++
          formatFromGTFS (idx + 1) rest, ?_⟩
      simp only [formatFromGTFS, formatOneGTFS, if_pos hdesc]
      simp only [String.append_assoc]
    · obtain ⟨pre, post, hpp⟩ := ih (idx + 1) h
      refine ⟨formatOneGTFS idx a ++ pre, post, ?_⟩
      simp only [formatFromGTFS, hpp]
      simp only [String.append_assoc]

/-- Every record of the list contributes its truncated-details line to the
simple-variant message accumulation, whatever the starting index. -/
theorem formatFromSimple_contains_record (idx : Nat) (rs : List SimpleRecord)
    (r : SimpleRecord) (hmem : r ∈ rs) (hdet : r.details ≠ "") :
    ∃ pre post, formatFromSimple idx rs =
      pre ++ ("   " ++ truncDesc200 r.details ++ "\n") ++ post := by
  induction rs generalizing idx with
  | nil => cases hmem
  | cons a rest ih =>
    rcases List.mem_cons.mp hmem with rfl | h
    · refine ⟨toString idx ++ ". " ++ r.header ++ "\n",
        "\n" ++ formatFromSimple (idx + 1) rest, ?_⟩
      simp only [formatFromSimple, formatOneSimple, if_pos hdet]
      simp only [String.append_assoc]
    · obtain ⟨pre, post, hpp⟩ := ih (idx + 1) h
      refine ⟨formatOneSimple idx a ++ pre, post, ?_⟩
      simp only [formatFromSimple, hpp]
      simp only [String.append_assoc]

/-- Claim C9: a composed New body contains, for each relevant record, the
record's header followed by its details truncated at a bound in the
200-300 range (300 in the GTFS variant, 200 in the simple variant) with an
ellipsis marker exactly when truncation occurs, and active-period bounds
are rendered only when present. -/
theorem new_body_per_record_format (ds : List Disruption) (d : Disruption)
    (hmem : d ∈ ds) (hdesc : d.description ≠ "") :
    (∃ pre post, format_disruption_message ds =
        pre ++ ("   " ++ d.header ++ "\n" ++ ("   " ++ truncDesc300 d.description ++ "\n")) ++
          post) ∧
    (∀ s : String, s.length ≤ 300 → truncDesc300 s = s) ∧
    (∀ s : String, 300 < s.length → truncDesc300 s = s.take 300 ++ "...") ∧
    (∀ s : String, s.length ≤ 200 → truncDesc200 s = s) ∧
    (∀ s : String, 200 < s.length → truncDesc200 s = s.take 200 ++ "...") ∧
    (∀ p : ActivePeriod, p.start = "" → p.end_ = "" → renderPeriodGTFS p = "") ∧
    (∀ p : ActivePeriod, p.start ≠ "" → p.end_ ≠ "" →
        renderPeriodGTFS p =
          "   Från: " ++ p.start ++ "\n" ++ ("   Till: " ++ p.end_ ++ "\n")) ∧
    (∀ (rs : List SimpleRecord) (r : SimpleRecord), r ∈ rs → r.details ≠ "" →
        ∃ pre post, formatFromSimple 1 rs =
          pre ++ ("   " ++ truncDesc200 r.details ++ "\n") ++ post) := by
  refine ⟨formatFromGTFS_contains_record 1 ds d hmem hdesc,
    fun s hs => by simp [truncDesc300, Nat.not_lt.mpr hs],
    fun s hs => by simp [truncDesc300, hs],
    fun s hs => by simp [truncDesc200, Nat.not_lt.mpr hs],
    fun s hs => by simp [truncDesc200, hs],
    fun p h1 h2 => by simp [renderPeriodGTFS, h1, h2],
    fun p h1 h2 => by simp [renderPeriodGTFS, h1, h2, String.append_assoc],
    fun rs r hr hd => formatFromSimple_contains_record 1 rs r hr hd⟩

/-- Witness for C9: a concrete record with a short non-empty description,
inside a one-record snapshot; its description is left unmodified and an
all-absent active period renders nothing. -/
theorem new_body_per_record_format_witness :
    truncDesc300 dC.description = dC.description ∧
    renderPeriodGTFS { start := "", end_ := "" } = "" :=
  ⟨(new_body_per_record_format [dC] dC (by decide) (by decide)).2.1
      dC.description (by decide),
   (new_body_per_record_format [dC] dC (by decide) (by decide)).2.2.2.2.2.1
      { start := "", end_ := "" } rfl rfl⟩

/-- Claim C10: an alert is considered to affect line 29 exactly when some
informed entity has a `route_id` containing the monitored string "29" as a
substring (the explicit `route_id == "29"` disjunct is subsumed); in
particular a `route_id` of a different line such as "129" or "290" is
included, and such an alert reaching an empty previous state triggers a
`New` classification. -/
theorem line_filter_matches_substring :
    (∀ informed : List InformedEntity,
        affects_line_29 informed = true ↔
          ∃ ie ∈ informed, ie.has_route_id = true ∧
            strContains ie.route_id LINE_TO_MONITOR = true) ∧
    affects_line_29 [{ has_route_id := true, route_id := "129" }] = true ∧
    affects_line_29 [{ has_route_id := true, route_id := "290" }] = true ∧
    filter_line_29 [e129] ≠ [] ∧
    classify [] (filter_line_29 [e129]) = (Transition.new, filter_line_29 [e129]) := by
  refine ⟨?_, by decide, by decide, by decide, by decide⟩
  intro informed
  unfold affects_line_29
  rw [List.any_eq_true]
  constructor
  · rintro ⟨ie, hie, h⟩
    rw [Bool.and_eq_true] at h
    obtain ⟨h1, h2⟩ := h
    rw [Bool.or_eq_true] at h2
    rcases h2 with h2 | h2
    · exact ⟨ie, hie, h1, h2⟩
    · have he : ie.route_id = LINE_TO_MONITOR := by simpa using h2
      refine ⟨ie, hie, h1, ?_⟩
      rw [he]
      decide
  · rintro ⟨ie, hie, h1, h2⟩
    exact ⟨ie, hie, by simp [h1, h2]⟩
